import Mathlib

/-!
A shallow embedding of the outbound networking layer of snarkOS
(`network/src/outbound/outbound.rs`): the channel registry, the outbound
dispatcher (`Outbound::send_request`), the liveness pinger
(`Node::send_ping`) and the per-connection writer task
(`Node::listen_for_outbound_messages`), together with theorems checking
the natural-language specification against this embedding.

External collaborators that are not part of the source file (the payload
type, the tokio bounded mpsc channel, the peer book, the sync layer, the
wire codec) are modelled from the spec, as marked on each definition.
-/

namespace SnarkOS

/-- Network addresses (`std::net::SocketAddr`), used opaquely as registry
keys; modelled as `Nat`. -/
abbrev SocketAddr := Nat

/-- Modelled from the spec: `crate::Payload` is "a tagged variant of all
protocol message kinds, e.g. `Ping(height)`"; only the `Ping` variant is
used by this core, all other kinds are collapsed into `Other`. -/
inductive Payload where
  | Ping (height : Nat)
  | Other (kind : Nat)
deriving DecidableEq, Repr

/-- Modelled from the spec: the direction tag of a message envelope; the
outbound core only ever constructs and consumes messages "addressed
outbound", carrying the destination `PeerAddress`. -/
inductive Direction where
  | Outbound (addr : SocketAddr)
deriving DecidableEq, Repr

/-- Modelled from the spec: `crate::Message`, "a directional envelope
combining a destination (`PeerAddress`, tagged as outbound) and a
`Payload`". -/
structure Message where
  direction : Direction
  payload : Payload
deriving DecidableEq, Repr

/-- `Message::new(direction, payload)`. -/
def Message.new (direction : Direction) (payload : Payload) : Message :=
  { direction := direction, payload := payload }

/-- `Message::receiver()`: the destination address of an outbound message. -/
def Message.receiver (m : Message) : SocketAddr :=
  match m.direction with
  | Direction.Outbound addr => addr

/-- Modelled from the spec: the state of one peer's bounded
multi-producer / single-consumer queue (a tokio `mpsc` channel pair,
`Sender`/`Receiver`).  `sendersDropped` records that every producing
handle is gone (the registry entry was removed), which makes `recv`
return `None` once the buffer drains; `receiverDropped` records that the
consuming half is gone (the writer task exited), which makes `try_send`
fail with `Closed`. -/
structure Channel where
  capacity : Nat
  buffer : List Message
  sendersDropped : Bool
  receiverDropped : Bool
deriving DecidableEq, Repr

/-- `tokio::sync::mpsc::error::TrySendError`, without the rejected
message (the callers of the model pair it back up themselves). -/
inductive TrySendError where
  | Full
  | Closed
deriving DecidableEq, Repr

/-- Modelled from the spec: `Sender::try_send` — a non-blocking enqueue
attempt on the bounded queue that fails with `Closed` when the consumer
is gone, with `Full` when the buffer is at capacity, and otherwise
appends the message at the back of the buffer. -/
def Channel.trySend (c : Channel) (m : Message) : Except TrySendError Channel :=
  if c.receiverDropped then Except.error TrySendError.Closed
  else if c.capacity ≤ c.buffer.length then Except.error TrySendError.Full
  else Except.ok { c with buffer := c.buffer ++ [m] }

/-- The possible outcomes of one `receiver.recv().await` call on the
consuming half of a queue: a dequeued message together with the advanced
queue, `closed` (`recv` returned `None`: buffer empty and all senders
dropped) or `pending` (buffer empty but senders alive: the task
suspends). Modelled from the spec / tokio `Receiver::recv` semantics. -/
inductive RecvResult where
  | msg (m : Message) (rest : Channel)
  | closed
  | pending
deriving DecidableEq, Repr

/-- Modelled from the spec: `Receiver::recv` on the writer task's
consuming half. FIFO: the head of the buffer is dequeued first. -/
def Channel.recv (c : Channel) : RecvResult :=
  match c.buffer with
  | m :: rest => RecvResult.msg m { c with buffer := rest }
  | [] => if c.sendersDropped then RecvResult.closed else RecvResult.pending

/-- The log levels used by the dispatch and writer paths. -/
inductive LogLevel where
  | warn
  | error
deriving DecidableEq, Repr

/-- The log lines emitted by `send_request` and
`listen_for_outbound_messages`, with the format arguments each one
interpolates (the displayed message identifies its payload kind). -/
inductive LogEvent where
  | channelFull (payload : Payload) (addr : SocketAddr)
  | channelClosed (payload : Payload) (addr : SocketAddr)
  | peerDisconnected (payload : Payload)
  | writeFailure (payload : Payload) (err : String)
deriving DecidableEq, Repr

/-- The level each log line is emitted at: `warn!` for a full channel, a
disconnected peer and a failed write; `error!` for a closed channel. -/
def LogEvent.level : LogEvent → LogLevel
  | LogEvent.channelFull _ _ => LogLevel.warn
  | LogEvent.channelClosed _ _ => LogLevel.error
  | LogEvent.peerDisconnected _ => LogLevel.warn
  | LogEvent.writeFailure _ _ => LogLevel.warn

/-- `NetworkError`, restricted to the variant this file produces. -/
inductive NetworkError where
  | OutboundChannelMissing
deriving DecidableEq, Repr

/-- The channel registry lookup (`MpmcMap::get`), modelled on an
association list from addresses to queue states. -/
def lookupChannel : List (SocketAddr × Channel) → SocketAddr → Option Channel
  | [], _ => none
  | (a, c) :: rest, addr => if a = addr then some c else lookupChannel rest addr

/-- Writing an updated queue state back under its key; the enqueue
performed through a registry entry's `Sender` mutates the shared queue,
never the key set of the registry. -/
def updateChannel : List (SocketAddr × Channel) → SocketAddr → Channel → List (SocketAddr × Channel)
  | [], _, _ => []
  | (a, c) :: rest, addr, c' =>
      if a = addr then (a, c') :: rest else (a, c) :: updateChannel rest addr c'

/-- The `Outbound` struct: the registry of write channels keyed by remote
address, and the two process-wide telemetry counters (`AtomicU64`,
starting at zero). -/
structure Outbound where
  channels : List (SocketAddr × Channel)
  send_success_count : Nat
  send_failure_count : Nat
deriving DecidableEq, Repr

/-- `Outbound::new`. -/
def Outbound.new (channels : List (SocketAddr × Channel)) : Outbound :=
  { channels := channels, send_success_count := 0, send_failure_count := 0 }

/-- `AtomicU64::fetch_add(1, SeqCst)`: a 64-bit wrapping increment. -/
def fetchAdd1 (c : Nat) : Nat :=
  (c + 1) % 2 ^ 64

/-- `Outbound::outbound_channel`: despite its doc comment, this only
fetches an existing channel from the registry (`self.channels.get`),
failing with `OutboundChannelMissing` when there is none. -/
def Outbound.outbound_channel (o : Outbound) (remote_address : SocketAddr) :
    Except NetworkError Channel :=
  match lookupChannel o.channels remote_address with
  | some channel => Except.ok channel
  | none => Except.error NetworkError.OutboundChannelMissing

/-- `Outbound::send_request`: look up the destination's channel and
attempt a non-blocking enqueue; on `Full` warn, on `Closed` log at error
level, on a missing registry entry warn that the peer is disconnected.
The function returns no error to the caller (in Rust it returns `()`);
the model returns the updated dispatcher state and the emitted log
lines. -/
def Outbound.send_request (o : Outbound) (request : Message) : Outbound × List LogEvent :=
  match o.outbound_channel (Message.receiver request) with
  | Except.ok channel =>
      match channel.trySend request with
      | Except.ok channel' =>
          ({ o with channels := updateChannel o.channels (Message.receiver request) channel' }, [])
      | Except.error TrySendError.Full =>
          (o, [LogEvent.channelFull request.payload (Message.receiver request)])
      | Except.error TrySendError.Closed =>
          (o, [LogEvent.channelClosed request.payload (Message.receiver request)])
  | Except.error _ =>
      (o, [LogEvent.peerDisconnected request.payload])

/-- The state a writer task (`listen_for_outbound_messages`) operates
on: its `Receiver` (the consuming half of one peer's queue), the
payloads so far written to that peer's stream by the wire codec
(`ConnWriter`), the two shared counters of `self.outbound`, and the log
lines it has emitted. -/
structure WriterState where
  receiver : Channel
  written : List Payload
  send_success_count : Nat
  send_failure_count : Nat
  log : List LogEvent
deriving DecidableEq, Repr

/-- The possible outcomes of one iteration of a task's loop body:
run another iteration with the given state, suspend awaiting a message,
or exit the loop. -/
inductive StepOutcome (σ : Type) where
  | next (s : σ)
  | blocked
  | terminated (s : σ)
deriving DecidableEq, Repr

/-- One iteration of the `loop` body of
`Node::listen_for_outbound_messages`, parameterized by the wire codec
`wr` (`ConnWriter::write_message`, an external collaborator): dequeue
the next message if one is available; on a successful write increment
`send_success_count`, on a failed write warn and increment
`send_failure_count`. When `recv` returns `None` the `if let` falls
through and the loop immediately runs again — the body contains no
`break` or `return`, so no iteration ever yields `terminated`. -/
def writerStep (wr : Payload → Except String Unit) (s : WriterState) :
    StepOutcome WriterState :=
  match s.receiver.recv with
  | RecvResult.msg message rest =>
      match wr message.payload with
      | Except.ok _ =>
          StepOutcome.next { s with
            receiver := rest,
            written := s.written ++ [message.payload],
            send_success_count := fetchAdd1 s.send_success_count }
      | Except.error error =>
          StepOutcome.next { s with
            receiver := rest,
            send_failure_count := fetchAdd1 s.send_failure_count,
            log := s.log ++ [LogEvent.writeFailure message.payload error] }
  | RecvResult.closed => StepOutcome.next s
  | RecvResult.pending => StepOutcome.blocked

/-- Run up to `n` iterations of the writer loop; a blocked (or exited)
task makes no further progress on its own. -/
def writerRun (wr : Payload → Except String Unit) : Nat → WriterState → WriterState
  | 0, s => s
  | Nat.succ n, s =>
      match writerStep wr s with
      | StepOutcome.next t => writerRun wr n t
      | _ => s

/-- The per-task state of one writer inside the interleaved system: its
queue's consuming half and the payloads written to its peer's stream. -/
structure WriterLocal where
  receiver : Channel
  written : List Payload
deriving DecidableEq, Repr

/-- The interleaved system the telemetry counters live in: one writer
task per live connection, all sharing the two process-wide atomic
counters of the `Outbound` struct. -/
structure SystemState where
  writers : List WriterLocal
  send_success_count : Nat
  send_failure_count : Nat
deriving DecidableEq, Repr

/-- One scheduler step of the interleaved system: writer `i` (if it
exists) runs one iteration of its loop body against the shared counters.
The second component is the number of messages dequeued by the step
(`0` or `1`), measured as the shrinkage of the chosen writer's buffer. -/
def systemStep (wr : Payload → Except String Unit) (s : SystemState) (i : Nat) :
    SystemState × Nat :=
  match s.writers.get? i with
  | none => (s, 0)
  | some w =>
      match writerStep wr
          { receiver := w.receiver, written := w.written,
            send_success_count := s.send_success_count,
            send_failure_count := s.send_failure_count, log := [] } with
      | StepOutcome.next t =>
          ({ writers := s.writers.set i { receiver := t.receiver, written := t.written },
             send_success_count := t.send_success_count,
             send_failure_count := t.send_failure_count },
           w.receiver.buffer.length - t.receiver.buffer.length)
      | _ => (s, 0)

/-- Run the interleaved system under a schedule (the sequence of writer
indices chosen by the runtime), returning the final state and the total
number of messages dequeued across all writers. -/
def systemRun (wr : Payload → Except String Unit) :
    List Nat → SystemState → SystemState × Nat
  | [], s => (s, 0)
  | i :: rest, s =>
      let p := systemStep wr s i
      let q := systemRun wr rest p.1
      (q.1, p.2 + q.2)

/-- Modelled from the spec: the sync collaborator's narrow interface,
`current_block_height() -> u64`. -/
structure Sync where
  current_block_height : Nat
deriving DecidableEq, Repr

/-- The `Node` state visible to this core: the optional sync
collaborator, the peer book (modelled from the spec as the recorded
sequence of `sending_ping` notifications, a fire-and-forget external
collaborator), and the outbound dispatcher. -/
structure Node where
  sync : Option Sync
  peer_book : List SocketAddr
  outbound : Outbound
deriving DecidableEq, Repr

/-- The externally observable actions `Node::send_ping` performs, in
program order. -/
inductive Event where
  | sendingPing (addr : SocketAddr)
  | sendRequest (m : Message)
  | log (e : LogEvent)
deriving DecidableEq, Repr

/-- Whether an event is the peer-book `sending_ping` notification. -/
def Event.isSendingPing : Event → Bool
  | Event.sendingPing _ => true
  | _ => false

/-- The dispatcher log lines contained in an event trace. -/
def logEvents : List Event → List LogEvent
  | [] => []
  | Event.log l :: rest => l :: logEvents rest
  | _ :: rest => logEvents rest

/-- `Node::send_ping`: read the chain height from the sync collaborator
(`0` when absent), notify the peer book, then dispatch a
`Ping(height)` message addressed outbound to the peer through
`Outbound::send_request`. Returns the updated node state and the trace
of observable actions in program order. -/
def Node.send_ping (node : Node) (remote_address : SocketAddr) : Node × List Event :=
  let current_block_height :=
    match node.sync with
    | some sync => sync.current_block_height
    | none => 0
  let message := Message.new (Direction.Outbound remote_address)
    (Payload.Ping current_block_height)
  let sent := node.outbound.send_request message
  ({ node with peer_book := node.peer_book ++ [remote_address], outbound := sent.1 },
   Event.sendingPing remote_address :: Event.sendRequest message
     :: sent.2.map Event.log)

/-! ### Concrete instances used by the witnesses -/

/-- A wire codec whose writes always succeed. -/
def wrOk : Payload → Except String Unit := fun _ => Except.ok ()

/-- A wire codec whose writes always fail with an I/O error. -/
def wrErr : Payload → Except String Unit := fun _ => Except.error "io error"

/-- A sample non-ping message addressed to peer `7`. -/
def msgOther : Message := Message.new (Direction.Outbound 7) (Payload.Other 0)

/-- An open queue of capacity `4` holding one message. -/
def chanOne : Channel :=
  { capacity := 4, buffer := [msgOther], sendersDropped := false, receiverDropped := false }

/-- An open queue at capacity (capacity `1`, one resident message). -/
def chanAtCap : Channel :=
  { capacity := 1, buffer := [msgOther], sendersDropped := false, receiverDropped := false }

/-- A queue whose consumer task has exited. -/
def chanGone : Channel :=
  { capacity := 4, buffer := [], sendersDropped := false, receiverDropped := true }

/-- A dispatcher with an empty registry. -/
def oDrop : Outbound := Outbound.new []

/-- A dispatcher whose entry for peer `7` is a queue at capacity. -/
def oFull : Outbound := Outbound.new [(7, chanAtCap)]

/-- A dispatcher whose entry for peer `7` is a closed queue. -/
def oClosed : Outbound := Outbound.new [(7, chanGone)]

/-- A writer task holding one queued message and zeroed counters. -/
def wState : WriterState :=
  { receiver := chanOne, written := [], send_success_count := 0, send_failure_count := 0,
    log := [] }

/-- A node with no sync collaborator and an empty registry. -/
def node0 : Node := { sync := none, peer_book := [], outbound := Outbound.new [] }

/-! ### Helper lemmas -/

/-- Writing a queue state back under its key never changes the key
sequence of the registry. -/
lemma updateChannel_map_fst (l : List (SocketAddr × Channel)) (a : SocketAddr) (c : Channel) :
    (updateChannel l a c).map Prod.fst = l.map Prod.fst := by
  induction l with
  | nil => rfl
  | cons hd tl ih =>
      obtain ⟨b, cb⟩ := hd
      by_cases hb : b = a <;> simp [updateChannel, hb, ih]

/-- Writing a queue state back under its key preserves which addresses
have a registry entry. -/
lemma lookup_updateChannel_isSome (l : List (SocketAddr × Channel))
    (a' : SocketAddr) (c' : Channel) (a : SocketAddr) :
    (lookupChannel (updateChannel l a' c') a).isSome = (lookupChannel l a).isSome := by
  induction l with
  | nil => rfl
  | cons hd tl ih =>
      obtain ⟨b, cb⟩ := hd
      by_cases hb : b = a'
      · subst hb
        by_cases hba : b = a
        · subst hba
          simp [updateChannel, lookupChannel]
        · simp [updateChannel, lookupChannel, hba]
      · by_cases hba : b = a
        · subst hba
          simp [updateChannel, lookupChannel, hb, ih]
        · simp [updateChannel, lookupChannel, hb, hba, ih]

/-- Projecting the dispatcher log lines out of a pure-log trace. -/
lemma logEvents_map_log (l : List LogEvent) : logEvents (l.map Event.log) = l := by
  induction l with
  | nil => rfl
  | cons hd tl ih => simp [logEvents, ih]

/-- A pure-log trace contains no peer-book notification. -/
lemma countP_map_log (l : List LogEvent) :
    (l.map Event.log).countP Event.isSendingPing = 0 := by
  induction l with
  | nil => rfl
  | cons hd tl ih => simp [List.countP_cons, Event.isSendingPing, ih]

/-! ### Claims about the dispatcher's failure paths -/

/-- C3. A message whose destination has no registry entry is dropped
with a `warn!` log: the dispatcher state (registry, both counters) is
returned unchanged, nothing is enqueued, no retry happens, and the
function gives the caller no error value (its Rust return type is
`()`). -/
theorem claim_C3 (o : Outbound) (m : Message)
    (h : lookupChannel o.channels (Message.receiver m) = none) :
    o.send_request m = (o, [LogEvent.peerDisconnected m.payload])
      ∧ (LogEvent.peerDisconnected m.payload).level = LogLevel.warn := by
  refine ⟨?_, rfl⟩
  simp [Outbound.send_request, Outbound.outbound_channel, h]

/-- Witness for C3: a concrete send into an empty registry. -/
theorem claim_C3_witness :
    lookupChannel oDrop.channels (Message.receiver msgOther) = none
    ∧ (oDrop.send_request msgOther = (oDrop, [LogEvent.peerDisconnected msgOther.payload])
       ∧ (LogEvent.peerDisconnected msgOther.payload).level = LogLevel.warn) :=
  ⟨rfl, claim_C3 oDrop msgOther rfl⟩

/-- C4. A message to a peer whose queue is at capacity (consumer alive)
is dropped with a `warn!` log naming the payload and the destination;
the dispatcher state — so in particular the queue's contents and length
and both counters — is unchanged, and the caller sees no error. -/
theorem claim_C4 (o : Outbound) (m : Message) (c : Channel)
    (hc : lookupChannel o.channels (Message.receiver m) = some c)
    (halive : c.receiverDropped = false)
    (hfull : c.capacity ≤ c.buffer.length) :
    o.send_request m = (o, [LogEvent.channelFull m.payload (Message.receiver m)])
      ∧ (LogEvent.channelFull m.payload (Message.receiver m)).level = LogLevel.warn := by
  refine ⟨?_, rfl⟩
  simp [Outbound.send_request, Outbound.outbound_channel, hc, Channel.trySend, halive, hfull]

/-- Witness for C4: a concrete send onto a queue at capacity. -/
theorem claim_C4_witness :
    lookupChannel oFull.channels (Message.receiver msgOther) = some chanAtCap
    ∧ chanAtCap.receiverDropped = false
    ∧ chanAtCap.capacity ≤ chanAtCap.buffer.length
    ∧ (oFull.send_request msgOther
        = (oFull, [LogEvent.channelFull msgOther.payload (Message.receiver msgOther)])
       ∧ (LogEvent.channelFull msgOther.payload (Message.receiver msgOther)).level
          = LogLevel.warn) :=
  ⟨rfl, rfl, by decide, claim_C4 oFull msgOther chanAtCap rfl rfl (by decide)⟩

/-- C5. A message to a peer whose registry entry's queue is closed (the
consumer exited but the entry is still present) is dropped with an
`error!`-level log; the dispatcher state is unchanged, and any
subsequent send behaves exactly as it would have before. -/
theorem claim_C5 (o : Outbound) (m : Message) (c : Channel)
    (hc : lookupChannel o.channels (Message.receiver m) = some c)
    (hclosed : c.receiverDropped = true) :
    o.send_request m = (o, [LogEvent.channelClosed m.payload (Message.receiver m)])
      ∧ (LogEvent.channelClosed m.payload (Message.receiver m)).level = LogLevel.error
      ∧ ∀ m₂ : Message, ((o.send_request m).1).send_request m₂ = o.send_request m₂ := by
  have h1 : o.send_request m = (o, [LogEvent.channelClosed m.payload (Message.receiver m)]) := by
    simp [Outbound.send_request, Outbound.outbound_channel, hc, Channel.trySend, hclosed]
  exact ⟨h1, rfl, fun m₂ => by rw [h1]⟩

/-- Witness for C5: a concrete send onto a closed queue. -/
theorem claim_C5_witness :
    lookupChannel oClosed.channels (Message.receiver msgOther) = some chanGone
    ∧ chanGone.receiverDropped = true
    ∧ (oClosed.send_request msgOther
        = (oClosed, [LogEvent.channelClosed msgOther.payload (Message.receiver msgOther)])
       ∧ (LogEvent.channelClosed msgOther.payload (Message.receiver msgOther)).level
          = LogLevel.error
       ∧ ∀ m₂ : Message,
          ((oClosed.send_request msgOther).1).send_request m₂ = oClosed.send_request m₂) :=
  ⟨rfl, rfl, claim_C5 oClosed msgOther chanGone rfl rfl⟩

/-- C8. `send_request` is read-only with respect to the registry on
every path (entry found, missing, full or closed): the key sequence of
the registry is unchanged and every address has an entry afterwards iff
it had one before. (On the success path the shared queue reached through
the entry's `Sender` gains a message, but the address-to-channel binding
itself is neither created nor removed.) -/
theorem claim_C8 (o : Outbound) (m : Message) :
    ((o.send_request m).1).channels.map Prod.fst = o.channels.map Prod.fst
    ∧ ∀ a : SocketAddr,
        (lookupChannel ((o.send_request m).1).channels a).isSome
          = (lookupChannel o.channels a).isSome := by
  unfold Outbound.send_request
  cases h : o.outbound_channel (Message.receiver m) with
  | ok channel =>
      cases ht : channel.trySend m with
      | ok c' => simp [ht, updateChannel_map_fst, lookup_updateChannel_isSome]
      | error e => cases e <;> simp [ht]
  | error e => simp

/-! ### Claims about the writer task -/

/-- C1. The writer task's loop body contains no `break` or `return`, so
no iteration can exit the loop; in particular, once the queue is closed
by the registry-removal path (all senders dropped) and drained, `recv`
returns `None`, the `if let` falls through, and the loop re-runs forever
with an unchanged state (a busy loop) instead of terminating. The first
conjunct shows no step ever terminates the loop; the second shows every
run from a closed-and-empty queue leaves the state untouched. -/
theorem claim_C1 :
    (∀ (wr : Payload → Except String Unit) (s t : WriterState),
        writerStep wr s ≠ StepOutcome.terminated t)
    ∧ (∀ (wr : Payload → Except String Unit) (n cap : Nat) (w : List Payload)
        (sc fc : Nat) (lg : List LogEvent),
        writerRun wr n
          { receiver := { capacity := cap, buffer := [], sendersDropped := true,
                          receiverDropped := false },
            written := w, send_success_count := sc, send_failure_count := fc, log := lg }
          = { receiver := { capacity := cap, buffer := [], sendersDropped := true,
                            receiverDropped := false },
              written := w, send_success_count := sc, send_failure_count := fc,
              log := lg }) := by
  constructor
  · intro wr s t h
    obtain ⟨⟨cap, buf, sd, rd⟩, w, sc, fc, lg⟩ := s
    cases buf with
    | nil => cases sd <;> simp [writerStep, Channel.recv] at h
    | cons m rest =>
        cases hw : wr m.payload <;> simp [writerStep, Channel.recv, hw] at h
  · intro wr n cap w sc fc lg
    induction n with
    | zero => rfl
    | succ n ih =>
        have hs : writerStep wr
            { receiver := { capacity := cap, buffer := [], sendersDropped := true,
                            receiverDropped := false },
              written := w, send_success_count := sc, send_failure_count := fc,
              log := lg }
            = StepOutcome.next
              { receiver := { capacity := cap, buffer := [], sendersDropped := true,
                              receiverDropped := false },
                written := w, send_success_count := sc, send_failure_count := fc,
                log := lg } := rfl
        rw [writerRun, hs]
        exact ih

/-- C6. A write failure does not end the writer task: the step dequeues
the message, leaves `send_success_count` alone, bumps
`send_failure_count` by one atomic increment, appends a `warn!` log
carrying the message's payload and the error detail, advances the queue
to the remaining messages, and the loop runs on (`next`, not
`terminated`). -/
theorem claim_C6 (wr : Payload → Except String Unit) (s : WriterState)
    (m : Message) (rest : List Message) (e : String)
    (hb : s.receiver.buffer = m :: rest)
    (hw : wr m.payload = Except.error e) :
    writerStep wr s = StepOutcome.next
      { receiver := { s.receiver with buffer := rest },
        written := s.written,
        send_success_count := s.send_success_count,
        send_failure_count := fetchAdd1 s.send_failure_count,
        log := s.log ++ [LogEvent.writeFailure m.payload e] }
    ∧ (LogEvent.writeFailure m.payload e).level = LogLevel.warn := by
  refine ⟨?_, rfl⟩
  have hr : s.receiver.recv = RecvResult.msg m { s.receiver with buffer := rest } := by
    unfold Channel.recv
    rw [hb]
  unfold writerStep
  rw [hr]
  simp [hw]

/-- Witness for C6: a failing write of the one queued message. -/
theorem claim_C6_witness :
    wState.receiver.buffer = msgOther :: []
    ∧ wrErr msgOther.payload = Except.error "io error"
    ∧ (writerStep wrErr wState = StepOutcome.next
        { receiver := { wState.receiver with buffer := [] },
          written := wState.written,
          send_success_count := wState.send_success_count,
          send_failure_count := fetchAdd1 wState.send_failure_count,
          log := wState.log ++ [LogEvent.writeFailure msgOther.payload "io error"] }
       ∧ (LogEvent.writeFailure msgOther.payload "io error").level = LogLevel.warn) :=
  ⟨rfl, rfl, claim_C6 wrErr wState msgOther [] "io error" rfl rfl⟩

/-! ### Claims about the liveness pinger -/

/-- C7. `send_ping` reads the chain height from the optional sync
collaborator (`0` when it is absent), appends the peer to the peer-book
notifications, and routes a `Ping(height)` message addressed outbound to
the peer through `Outbound::send_request` — its effect on the dispatcher
and its emitted log lines are exactly those of `send_request` on that
message, so the failure semantics are the same as for any other
dispatched message. -/
theorem claim_C7 (node : Node) (a : SocketAddr) :
    ((node.send_ping a).1.outbound
        = (node.outbound.send_request (Message.new (Direction.Outbound a)
            (Payload.Ping (match node.sync with
              | some sync => sync.current_block_height
              | none => 0)))).1)
    ∧ (node.send_ping a).1.peer_book = node.peer_book ++ [a]
    ∧ (node.send_ping a).1.sync = node.sync
    ∧ logEvents (node.send_ping a).2
        = (node.outbound.send_request (Message.new (Direction.Outbound a)
            (Payload.Ping (match node.sync with
              | some sync => sync.current_block_height
              | none => 0)))).2
    ∧ (node.sync = none →
        (node.send_ping a).2
          = Event.sendingPing a
            :: Event.sendRequest (Message.new (Direction.Outbound a) (Payload.Ping 0))
            :: (node.outbound.send_request
                (Message.new (Direction.Outbound a) (Payload.Ping 0))).2.map Event.log) := by
  obtain ⟨sy, pb, ob⟩ := node
  cases sy with
  | none =>
      refine ⟨rfl, rfl, rfl, ?_, fun _ => rfl⟩
      simp [Node.send_ping, logEvents, logEvents_map_log]
  | some sync =>
      refine ⟨rfl, rfl, rfl, ?_, fun hn => by simp at hn⟩
      simp [Node.send_ping, logEvents, logEvents_map_log]

/-- Witness for C7: a ping on a node without a sync collaborator. -/
theorem claim_C7_witness :
    ((node0.send_ping 7).1.outbound
        = (node0.outbound.send_request (Message.new (Direction.Outbound 7)
            (Payload.Ping (match node0.sync with
              | some sync => sync.current_block_height
              | none => 0)))).1)
    ∧ (node0.send_ping 7).1.peer_book = node0.peer_book ++ [7]
    ∧ (node0.send_ping 7).1.sync = node0.sync
    ∧ logEvents (node0.send_ping 7).2
        = (node0.outbound.send_request (Message.new (Direction.Outbound 7)
            (Payload.Ping (match node0.sync with
              | some sync => sync.current_block_height
              | none => 0)))).2
    ∧ (node0.sync = none →
        (node0.send_ping 7).2
          = Event.sendingPing 7
            :: Event.sendRequest (Message.new (Direction.Outbound 7) (Payload.Ping 0))
            :: (node0.outbound.send_request
                (Message.new (Direction.Outbound 7) (Payload.Ping 0))).2.map Event.log) :=
  claim_C7 node0 7

/-- C10. On every call to `send_ping` the peer-book notification is the
first observable action: the trace starts with `sending_ping(peer)`
followed by the dispatch attempt, and `sending_ping` occurs exactly once
in the whole trace — in particular it happens even when the dispatch
then fails (missing entry, full queue or closed queue), since the trace
shape below holds for every node state. -/
theorem claim_C10 (node : Node) (a : SocketAddr) :
    ∃ (m : Message) (rest : List Event),
      (node.send_ping a).2 = Event.sendingPing a :: Event.sendRequest m :: rest
      ∧ (node.send_ping a).2.countP Event.isSendingPing = 1 := by
  obtain ⟨sy, pb, ob⟩ := node
  cases sy with
  | none =>
      refine ⟨Message.new (Direction.Outbound a) (Payload.Ping 0),
        (ob.send_request
          (Message.new (Direction.Outbound a) (Payload.Ping 0))).2.map Event.log,
        rfl, ?_⟩
      simp [Node.send_ping, List.countP_cons, Event.isSendingPing, countP_map_log]
  | some sync =>
      refine ⟨Message.new (Direction.Outbound a) (Payload.Ping sync.current_block_height),
        (ob.send_request
          (Message.new (Direction.Outbound a)
            (Payload.Ping sync.current_block_height))).2.map Event.log,
        rfl, ?_⟩
      simp [Node.send_ping, List.countP_cons, Event.isSendingPing, countP_map_log]

/-! ### FIFO ordering -/

/-- C9. Per-peer FIFO: a successful enqueue appends at the back of the
peer's queue; a send whose message is dropped (it logged something)
leaves the dispatcher — and hence every queue — untouched, so the
dropped message never enters the delivered sequence; and the writer
task dequeues from the front, so with a succeeding wire codec the
payloads written to the stream extend the previously written ones by
exactly the queued messages in their enqueue order. -/
theorem claim_C9 (wr : Payload → Except String Unit)
    (hok : ∀ p, wr p = Except.ok ()) :
    (∀ (c : Channel) (m : Message) (c' : Channel),
        c.trySend m = Except.ok c' → c'.buffer = c.buffer ++ [m])
    ∧ (∀ (o : Outbound) (m : Message),
        (o.send_request m).2 ≠ [] → (o.send_request m).1 = o)
    ∧ (∀ (n : Nat) (s : WriterState),
        (writerRun wr n s).written
          = s.written ++ (s.receiver.buffer.take n).map Message.payload) := by
  refine ⟨?_, ?_, ?_⟩
  · intro c m c' h
    unfold Channel.trySend at h
    split_ifs at h with h1 h2
    cases h
    rfl
  · intro o m
    unfold Outbound.send_request
    cases hoc : o.outbound_channel (Message.receiver m) with
    | ok channel =>
        cases ht : channel.trySend m with
        | ok c' => intro h; simp [ht] at h
        | error e => cases e <;> (intro h; simp [ht])
    | error e => intro h; rfl
  · intro n
    induction n with
    | zero => intro s; simp [writerRun]
    | succ n ih =>
        intro s
        obtain ⟨⟨cap, buf, sd, rd⟩, w, sc, fc, lg⟩ := s
        cases buf with
        | nil =>
            cases sd
            · simp [writerRun, writerStep, Channel.recv]
            · simp [writerRun, writerStep, Channel.recv, ih]
        | cons m rest =>
            have hw := hok m.payload
            simp [writerRun, writerStep, Channel.recv, hw, ih]

/-- Witness for C9: a three-step run of the writer over a one-message
queue with an always-succeeding wire codec. -/
theorem claim_C9_witness :
    (∀ p, wrOk p = Except.ok ())
    ∧ (writerRun wrOk 3 wState).written
        = wState.written ++ (wState.receiver.buffer.take 3).map Message.payload :=
  ⟨fun _ => rfl, (claim_C9 wrOk (fun _ => rfl)).2.2 3 wState⟩

/-! ### Telemetry counters -/

/-- Below the 64-bit wrap-around, `fetch_add(1)` is an exact increment. -/
lemma fetchAdd1_eq_succ (c : Nat) (h : c + 1 < 2 ^ 64) : fetchAdd1 c = c + 1 :=
  Nat.mod_eq_of_lt h

/-- One system step either dequeues nothing and leaves both counters
alone, or dequeues exactly one message and bumps exactly one of the two
counters by exactly `1`. -/
lemma systemStep_exact (wr : Payload → Except String Unit) (s : SystemState) (i : Nat)
    (h : s.send_success_count + s.send_failure_count + 1 < 2 ^ 64) :
    ((systemStep wr s i).2 = 0
      ∧ (systemStep wr s i).1.send_success_count = s.send_success_count
      ∧ (systemStep wr s i).1.send_failure_count = s.send_failure_count)
    ∨ ((systemStep wr s i).2 = 1
      ∧ (((systemStep wr s i).1.send_success_count = s.send_success_count + 1
          ∧ (systemStep wr s i).1.send_failure_count = s.send_failure_count)
        ∨ ((systemStep wr s i).1.send_failure_count = s.send_failure_count + 1
          ∧ (systemStep wr s i).1.send_success_count = s.send_success_count))) := by
  unfold systemStep
  cases hg : s.writers.get? i with
  | none => left; exact ⟨rfl, rfl, rfl⟩
  | some w =>
      obtain ⟨⟨cap, buf, sd, rd⟩, wrt⟩ := w
      cases buf with
      | nil =>
          cases sd
          · left
            simp [writerStep, Channel.recv]
          · left
            simp [writerStep, Channel.recv]
      | cons m rest =>
          cases hw : wr m.payload with
          | ok u =>
              right
              refine ⟨?_, Or.inl ⟨?_, ?_⟩⟩ <;>
                simp [writerStep, Channel.recv, hw, fetchAdd1] <;> omega
          | error e =>
              right
              refine ⟨?_, Or.inr ⟨?_, ?_⟩⟩ <;>
                simp [writerStep, Channel.recv, hw, fetchAdd1] <;> omega

/-- Along any schedule whose length keeps the counters below the 64-bit
wrap, the sum of the two shared counters grows by exactly the number of
messages dequeued across all writers, each counter is monotone, and at
most one message is dequeued per step. -/
lemma systemRun_inv (wr : Payload → Except String Unit) :
    ∀ (sched : List Nat) (s : SystemState),
    s.send_success_count + s.send_failure_count + sched.length < 2 ^ 64 →
    ((systemRun wr sched s).1.send_success_count
        + (systemRun wr sched s).1.send_failure_count
      = s.send_success_count + s.send_failure_count + (systemRun wr sched s).2)
    ∧ s.send_success_count ≤ (systemRun wr sched s).1.send_success_count
    ∧ s.send_failure_count ≤ (systemRun wr sched s).1.send_failure_count
    ∧ (systemRun wr sched s).2 ≤ sched.length := by
  intro sched
  induction sched with
  | nil =>
      intro s h
      simp [systemRun]
  | cons i rest ih =>
      intro s h
      simp only [List.length_cons] at h
      have hstep := systemStep_exact wr s i (by omega)
      have hbound : (systemStep wr s i).1.send_success_count
          + (systemStep wr s i).1.send_failure_count + rest.length < 2 ^ 64 := by
        rcases hstep with ⟨_, h1, h2⟩ | ⟨_, ⟨h1, h2⟩ | ⟨h1, h2⟩⟩ <;> omega
      have hrest := ih (systemStep wr s i).1 hbound
      simp only [systemRun, List.length_cons]
      rcases hstep with ⟨hd, h1, h2⟩ | ⟨hd, ⟨h1, h2⟩ | ⟨h1, h2⟩⟩ <;>
        rcases hrest with ⟨e1, e2, e3, e4⟩ <;>
        refine ⟨?_, ?_, ?_, ?_⟩ <;> omega

/-- C2. From zeroed counters, after any interleaving of writer steps
short enough not to wrap the 64-bit counters, `send_success_count +
send_failure_count` equals the total number of messages dequeued across
all writers; each step that dequeues a message bumps exactly one of the
two counters by exactly `1` and a step that dequeues nothing touches
neither; both counters are monotone along any such run (there is no
reset); and the dispatcher (`send_request`) never touches either
counter, so dropped messages never reach them. -/
theorem claim_C2 (wr : Payload → Except String Unit) (sched : List Nat)
    (ws : List WriterLocal) (h : sched.length < 2 ^ 64) :
    ((systemRun wr sched ⟨ws, 0, 0⟩).1.send_success_count
        + (systemRun wr sched ⟨ws, 0, 0⟩).1.send_failure_count
      = (systemRun wr sched ⟨ws, 0, 0⟩).2)
    ∧ (∀ s : SystemState,
        s.send_success_count + s.send_failure_count + sched.length < 2 ^ 64 →
        s.send_success_count ≤ (systemRun wr sched s).1.send_success_count
        ∧ s.send_failure_count ≤ (systemRun wr sched s).1.send_failure_count)
    ∧ (∀ (s : SystemState) (i : Nat),
        s.send_success_count + s.send_failure_count + 1 < 2 ^ 64 →
        ((systemStep wr s i).2 = 0
          ∧ (systemStep wr s i).1.send_success_count = s.send_success_count
          ∧ (systemStep wr s i).1.send_failure_count = s.send_failure_count)
        ∨ ((systemStep wr s i).2 = 1
          ∧ (((systemStep wr s i).1.send_success_count = s.send_success_count + 1
              ∧ (systemStep wr s i).1.send_failure_count = s.send_failure_count)
            ∨ ((systemStep wr s i).1.send_failure_count = s.send_failure_count + 1
              ∧ (systemStep wr s i).1.send_success_count = s.send_success_count))))
    ∧ (∀ (o : Outbound) (m : Message),
        ((o.send_request m).1).send_success_count = o.send_success_count
        ∧ ((o.send_request m).1).send_failure_count = o.send_failure_count) := by
  refine ⟨?_, ?_, ?_, ?_⟩
  · have := systemRun_inv wr sched ⟨ws, 0, 0⟩ (by simpa using h)
    simpa using this.1
  · intro s hs
    exact ⟨(systemRun_inv wr sched s hs).2.1, (systemRun_inv wr sched s hs).2.2.1⟩
  · intro s i hs
    exact systemStep_exact wr s i hs
  · intro o m
    unfold Outbound.send_request
    cases hoc : o.outbound_channel (Message.receiver m) with
    | ok channel =>
        cases ht : channel.trySend m with
        | ok c' => simp [ht]
        | error e => cases e <;> simp [ht]
    | error e => exact ⟨rfl, rfl⟩

/-- Witness for C2: one scheduled step over a single writer holding one
queued message, with a succeeding wire codec and zeroed counters. -/
theorem claim_C2_witness :
    ([0] : List Nat).length < 2 ^ 64
    ∧ ((systemRun wrOk [0]
          ⟨[{ receiver := chanOne, written := [] }], 0, 0⟩).1.send_success_count
        + (systemRun wrOk [0]
            ⟨[{ receiver := chanOne, written := [] }], 0, 0⟩).1.send_failure_count
      = (systemRun wrOk [0] ⟨[{ receiver := chanOne, written := [] }], 0, 0⟩).2) :=
  ⟨by norm_num,
   (claim_C2 wrOk [0] [{ receiver := chanOne, written := [] }] (by norm_num)).1⟩

end SnarkOS
